import Mathlib

/-
Shallow embedding of the exposure-calculation engine of the light-meter
application.

Number values (JS floats) are modelled as real numbers.  The Vue `ref`
cells of each script are gathered into a state record, and each mutating
function becomes a state-to-state function.  The numeric value of the
`iso` ref (the source stores it as a string and reads it through
`Number(...)`) is modelled directly as a real.

Source files:
  - `useLightMeter` composable            -> namespace Meter1
  - main metering view (center-weighted)  -> namespace Meter4
-/

namespace LightMeter

/-- The `typeFlag` ref: `'aperture'` (aperture priority) or `'shutter'`
(shutter priority). -/
inductive MeterMode
  | aperture
  | shutter
deriving DecidableEq

/-- One step of the JS `Array.prototype.reduce` callback
`(prev, curr) => d(curr) < d(prev) ? curr : prev` used by every
nearest-standard-value lookup in the source. -/
noncomputable def nearStep (d : ℝ → ℝ) (prev curr : ℝ) : ℝ :=
  if d curr < d prev then curr else prev

/-- JS `list.reduce((prev, curr) => d(curr) < d(prev) ? curr : prev)`:
the first element is the initial accumulator.  (JS throws on an empty
array; the `[]` case is never reached on the concrete scale tables.) -/
noncomputable def nearestBy (d : ℝ → ℝ) : List ℝ → ℝ
  | [] => 0
  | a :: t => t.foldl (nearStep d) a

namespace Meter1

/-- `standardApertureValues` of the composable. -/
noncomputable def standardApertureValues : List ℝ :=
  [1.0, 1.4, 2.0, 2.8, 4.0, 5.6, 8.0, 11.0, 16.0, 22.0]

/-- `standardShutterSpeeds` of the composable. -/
noncomputable def standardShutterSpeeds : List ℝ :=
  [1/8000, 1/4000, 1/2000, 1/1000, 1/500, 1/250, 1/125,
   1/60, 1/30, 1/15, 1/8, 1/4, 1/2, 1, 2, 4, 8, 15, 30]

/-- `getStandardShutterSpeed`: reduce by log2 distance
`|log2 curr - log2 value| < |log2 prev - log2 value|`. -/
noncomputable def getStandardShutterSpeed (value : ℝ) : ℝ :=
  nearestBy (fun c => |Real.logb 2 c - Real.logb 2 value|) standardShutterSpeeds

/-- `getStandardApertureValue`: reduce by linear distance
`|curr - value| < |prev - value|`. -/
noncomputable def getStandardApertureValue (value : ℝ) : ℝ :=
  nearestBy (fun c => |c - value|) standardApertureValues

/-- `deviceBrightnessCompensation` constant of the composable. -/
noncomputable def deviceBrightnessCompensation : ℝ := 1.0

/-- `baseCalibrationFactor` constant of the composable. -/
noncomputable def baseCalibrationFactor : ℝ := 1.2

/-- `calculateEV(luminance, samples = 5)`: every loop iteration adds the
same `singleMeasurement()` value (it depends only on `luminance`), and
the total is divided by `samples`. -/
noncomputable def calculateEV (luminance : ℝ) (samples : ℕ := 5) : ℝ :=
  let singleMeasurement : ℝ :=
    let calibrationFactor := baseCalibrationFactor * deviceBrightnessCompensation
    let minLuminance : ℝ := 0.001
    let maxLuminance : ℝ := 0.95
    let clampedLuminance := max minLuminance (min maxLuminance luminance)
    Real.logb 2 (clampedLuminance * 100 * calibrationFactor)
  (∑ _i ∈ Finset.range samples, singleMeasurement) / samples

/-- The refs of the composable, as one record. -/
structure State where
  currentEV : ℝ
  aperture : ℝ
  shutterSpeed : ℝ
  iso : ℝ
  exposureCompensation : ℝ
  typeFlag : MeterMode

/-- The raw shutter value of the aperture-priority branch of
`updateExposureParams`:
`Math.pow(2, -(ev - compensation)) * (100 / iso) * Math.pow(aperture, 2)`. -/
noncomputable def shutterRawValue (s : State) (ev : ℝ) : ℝ :=
  (2 : ℝ) ^ (-(ev - s.exposureCompensation)) * (100 / s.iso) * s.aperture ^ 2

/-- The raw aperture of the shutter-priority branch of
`updateExposureParams`:
`Math.sqrt(shutterSpeed * (100 / iso) * Math.pow(2, ev - compensation))`. -/
noncomputable def apertureRawValue (s : State) (ev : ℝ) : ℝ :=
  Real.sqrt (s.shutterSpeed * (100 / s.iso) * (2 : ℝ) ^ (ev - s.exposureCompensation))

/-- `updateExposureParams(ev)`.  It first writes `currentEV.value = ev`,
then solves for the driven parameter of the current mode; in shutter
priority the solve is guarded by `shutterSpeed.value > 0`. -/
noncomputable def updateExposureParams (s : State) (ev : ℝ) : State :=
  let s1 : State := { s with currentEV := ev }
  if s1.typeFlag = MeterMode.aperture then
    let shutterValue := shutterRawValue s1 ev
    if shutterValue < 1/8000 ∨ shutterValue > 30 then
      { s1 with shutterSpeed := 0 }
    else
      { s1 with shutterSpeed := getStandardShutterSpeed shutterValue }
  else if s1.typeFlag = MeterMode.shutter ∧ s1.shutterSpeed > 0 then
    let calculatedAperture := apertureRawValue s1 ev
    if calculatedAperture < 1.0 ∨ calculatedAperture > 22 then
      { s1 with aperture := 0 }
    else
      { s1 with aperture := getStandardApertureValue calculatedAperture }
  else s1

/-- `toggleMeteringMode()`. -/
noncomputable def toggleMeteringMode (s : State) : State :=
  { s with typeFlag := if s.typeFlag = MeterMode.aperture then MeterMode.shutter
                       else MeterMode.aperture }

end Meter1

namespace Meter4

/-- `apertureValues` of the main metering view. -/
noncomputable def apertureValues : List ℝ :=
  [1.0, 1.2, 1.4, 1.8, 2, 2.8, 4, 5.6, 8, 11, 16, 22]

/-- `standardShutterSpeeds` of the main metering view. -/
noncomputable def standardShutterSpeeds : List ℝ :=
  [1/8000, 1/4000, 1/2000, 1/1000, 1/500, 1/250, 1/125,
   1/60, 1/30, 1/15, 1/8, 1/4, 1/2, 1, 2, 4, 8, 15, 30]

/-- `getStandardShutterSpeed`: reduce by log2 distance. -/
noncomputable def getStandardShutterSpeed (shutterValue : ℝ) : ℝ :=
  nearestBy (fun c => |Real.logb 2 c - Real.logb 2 shutterValue|) standardShutterSpeeds

/-- `getStandardAperture`: reduce by log2 distance. -/
noncomputable def getStandardAperture (apertureValue : ℝ) : ℝ :=
  nearestBy (fun c => |Real.logb 2 c - Real.logb 2 apertureValue|) apertureValues

/-- The pixel buffer drawn from the video frame: `data` is the flat RGBA
byte array (4 consecutive entries per pixel, each in 0..255). -/
structure Frame where
  width : ℕ
  height : ℕ
  data : ℕ → ℕ

/-- The per-channel sRGB-to-linear gamma correction of `singleMeasurement`:
`c <= 0.03928 ? c / 12.92 : Math.pow((c + 0.055) / 1.055, 2.4)`. -/
noncomputable def gammaCorrect (c : ℝ) : ℝ :=
  if c ≤ 0.03928 then c / 12.92 else ((c + 0.055) / 1.055) ^ (2.4 : ℝ)

/-- The weighted luminance that one pixel contributes inside the loop of
`singleMeasurement`: Rec. 709 combination of the gamma-corrected
channels, times the center weight 0.6 if the pixel lies in the center
area (`x` in `[floor(w*0.3), floor(w*0.3) + floor(w*0.4)]`, same for `y`)
and `1 - 0.6` otherwise. -/
noncomputable def weightedPixelLuminance (f : Frame) (x y : ℕ) : ℝ :=
  let centerWeight : ℝ := 0.6
  let cx := ⌊(f.width : ℝ) * 0.3⌋₊
  let cy := ⌊(f.height : ℝ) * 0.3⌋₊
  let cw := ⌊(f.width : ℝ) * 0.4⌋₊
  let ch := ⌊(f.height : ℝ) * 0.4⌋₊
  let i := (y * f.width + x) * 4
  let weight := if cx ≤ x ∧ x ≤ cx + cw ∧ cy ≤ y ∧ y ≤ cy + ch
                then centerWeight else 1 - centerWeight
  let r := (f.data i : ℝ) / 255
  let g := (f.data (i + 1) : ℝ) / 255
  let b := (f.data (i + 2) : ℝ) / 255
  (0.2126 * gammaCorrect r + 0.7152 * gammaCorrect g + 0.0722 * gammaCorrect b) * weight

/-- `totalLuminance / pixelCount` at the end of the pixel loop of
`singleMeasurement`: the loop visits every `(x, y)` once, so
`pixelCount = width * height`. -/
noncomputable def averageLuminance (f : Frame) : ℝ :=
  (∑ y ∈ Finset.range f.height, ∑ x ∈ Finset.range f.width, weightedPixelLuminance f x y) /
    (f.width * f.height : ℕ)

/-- The value returned by one `singleMeasurement()` call: the average
luminance is clamped into `[0.001, 0.95]`, calibrated by
`12.5 * 1.2`, and converted through log2. -/
noncomputable def singleMeasurement (f : Frame) : ℝ :=
  let averageLum := averageLuminance f
  let calibrationFactor : ℝ := 12.5 * 1.2
  let clampedLuminance := max 0.001 (min 0.95 averageLum)
  Real.logb 2 (clampedLuminance * 100 * calibrationFactor)

/-- `calculatedEV` of `analyzeBrightness`: `samples = 10` identical
measurements are summed and averaged. -/
noncomputable def measuredEV (f : Frame) : ℝ :=
  (∑ _i ∈ Finset.range 10, singleMeasurement f) / 10

/-- The refs of the main metering view that `analyzeBrightness` reads and
writes (its `currentEV` is a `computed`, not a stored ref). -/
structure State where
  iso : ℝ
  exposureCompensation : ℝ
  aperture : ℝ
  shutterSpeed : ℝ
  typeFlag : MeterMode

/-- The pure core of `analyzeBrightness()`: sample the current frame,
average the EV, and solve for the driven parameter of the current mode.
(The early returns for a missing video/stream/context are the caller's
not-ready path and take no state to model.) -/
noncomputable def analyzeBrightness (f : Frame) (s : State) : State :=
  let calculatedEV := measuredEV f
  if s.typeFlag = MeterMode.aperture then
    let shutterValue :=
      (2 : ℝ) ^ (-(calculatedEV - s.exposureCompensation)) * (100 / s.iso) * s.aperture ^ 2
    if shutterValue < 1/8000 ∨ shutterValue > 30 then
      { s with shutterSpeed := 0 }
    else
      { s with shutterSpeed := getStandardShutterSpeed shutterValue }
  else if s.typeFlag = MeterMode.shutter ∧ s.shutterSpeed > 0 then
    let calculatedAperture :=
      Real.sqrt (s.shutterSpeed * (100 / s.iso) * (2 : ℝ) ^ (calculatedEV - s.exposureCompensation))
    if calculatedAperture < 1.0 ∨ calculatedAperture > 22 then
      { s with aperture := 0 }
    else
      { s with aperture := getStandardAperture calculatedAperture }
  else s

/-- The handler of `watch([iso, exposureCompensation], ...)`: when the
current shutter speed is positive it runs a full `analyzeBrightness()`
on the frame the camera currently shows; otherwise it does nothing. -/
noncomputable def watchIsoComp (f : Frame) (s : State) : State :=
  if s.shutterSpeed > 0 then analyzeBrightness f s else s

end Meter4

/-- Rational mirror of the shutter scale, for computing snaps. -/
def shutterScaleQ : List ℚ :=
  [1/8000, 1/4000, 1/2000, 1/1000, 1/500, 1/250, 1/125,
   1/60, 1/30, 1/15, 1/8, 1/4, 1/2, 1, 2, 4, 8, 15, 30]

/-- Rational mirror of the composable's aperture scale. -/
def apertureScale1Q : List ℚ :=
  [1, 1.4, 2, 2.8, 4, 5.6, 8, 11, 16, 22]

/-- Rational mirror of the main view's aperture scale. -/
def apertureScale4Q : List ℚ :=
  [1, 1.2, 1.4, 1.8, 2, 2.8, 4, 5.6, 8, 11, 16, 22]

/-- Computable mirror of a log2-distance reduce: on positive rationals,
`|log2 c - log2 v| < |log2 p - log2 v|` holds iff
`max (c/v) (v/c) < max (p/v) (v/p)`. -/
def snapLogQ (v : ℚ) : List ℚ → ℚ
  | [] => 0
  | a :: t => t.foldl (fun p c => if max (c / v) (v / c) < max (p / v) (v / p) then c else p) a

/-- Computable mirror of a linear-distance reduce. -/
def snapLinQ (v : ℚ) : List ℚ → ℚ
  | [] => 0
  | a :: t => t.foldl (fun p c => if |c - v| < |p - v| then c else p) a

/-- The reduce keeps the first strict minimum: either the initial
accumulator is already minimal and survives, or the result is a list
element that is strictly better than the accumulator and than every
element before it, and no worse than any element. -/
theorem foldl_nearStep_spec (d : ℝ → ℝ) (l : List ℝ) :
    ∀ a : ℝ,
      (l.foldl (nearStep d) a = a ∧ ∀ x ∈ l, d a ≤ d x) ∨
      (d (l.foldl (nearStep d) a) < d a ∧
        (∀ x ∈ l, d (l.foldl (nearStep d) a) ≤ d x) ∧
        ∃ l1 l2, l = l1 ++ (l.foldl (nearStep d) a) :: l2 ∧
          ∀ x ∈ l1, d (l.foldl (nearStep d) a) < d x) := by
  induction l with
  | nil => intro a; exact Or.inl ⟨rfl, by simp⟩
  | cons c t ih =>
    intro a
    by_cases h : d c < d a
    · have hstep : (c :: t).foldl (nearStep d) a = t.foldl (nearStep d) c := by
        simp [List.foldl_cons, nearStep, h]
      rcases ih c with ⟨he, hmin⟩ | ⟨hlt, hmin, l1, l2, heq, hfirst⟩
      · refine Or.inr ?_
        rw [hstep, he]
        refine ⟨h, ?_, [], t, by simp, by simp⟩
        intro x hx
        rcases List.mem_cons.mp hx with rfl | hx
        exacts [le_refl _, hmin x hx]
      · refine Or.inr ?_
        rw [hstep]
        refine ⟨lt_trans hlt h, ?_, c :: l1, l2, ?_, ?_⟩
        · intro x hx
          rcases List.mem_cons.mp hx with rfl | hx
          exacts [le_of_lt hlt, hmin x hx]
        · rw [List.cons_append]; exact congrArg (List.cons c) heq
        · intro x hx
          rcases List.mem_cons.mp hx with rfl | hx
          exacts [hlt, hfirst x hx]
    · have hstep : (c :: t).foldl (nearStep d) a = t.foldl (nearStep d) a := by
        simp [List.foldl_cons, nearStep, h]
      have hac : d a ≤ d c := not_lt.mp h
      rcases ih a with ⟨he, hmin⟩ | ⟨hlt, hmin, l1, l2, heq, hfirst⟩
      · refine Or.inl ?_
        rw [hstep, he]
        refine ⟨rfl, ?_⟩
        intro x hx
        rcases List.mem_cons.mp hx with rfl | hx
        exacts [hac, hmin x hx]
      · refine Or.inr ?_
        rw [hstep]
        refine ⟨hlt, ?_, c :: l1, l2, ?_, ?_⟩
        · intro x hx
          rcases List.mem_cons.mp hx with rfl | hx
          exacts [le_of_lt (lt_of_lt_of_le hlt hac), hmin x hx]
        · rw [List.cons_append]; exact congrArg (List.cons c) heq
        · intro x hx
          rcases List.mem_cons.mp hx with rfl | hx
          exacts [lt_of_lt_of_le hlt hac, hfirst x hx]

/-- Specification of a JS nearest-value reduce on a nonempty list: the
result attains the minimum distance over the list, and everything that
comes before the result in the list is strictly farther, so the
earliest entry wins exact ties. -/
theorem nearestBy_spec (d : ℝ → ℝ) (a : ℝ) (t : List ℝ) :
    (∀ x ∈ a :: t, d (nearestBy d (a :: t)) ≤ d x) ∧
    ∃ l1 l2, a :: t = l1 ++ nearestBy d (a :: t) :: l2 ∧
      ∀ x ∈ l1, d (nearestBy d (a :: t)) < d x := by
  have hr : nearestBy d (a :: t) = t.foldl (nearStep d) a := rfl
  rw [hr]
  rcases foldl_nearStep_spec d t a with ⟨he, hmin⟩ | ⟨hlt, hmin, l1, l2, heq, hfirst⟩
  · rw [he]
    refine ⟨?_, [], t, by simp, by simp⟩
    intro x hx
    rcases List.mem_cons.mp hx with rfl | hx
    exacts [le_refl _, hmin x hx]
  · refine ⟨?_, a :: l1, l2, ?_, ?_⟩
    · intro x hx
      rcases List.mem_cons.mp hx with rfl | hx
      exacts [le_of_lt hlt, hmin x hx]
    · rw [List.cons_append]; exact congrArg (List.cons a) heq
    · intro x hx
      rcases List.mem_cons.mp hx with rfl | hx
      exacts [hlt, hfirst x hx]

/-- The result of a nearest-value reduce is an element of the list. -/
theorem nearestBy_mem (d : ℝ → ℝ) (a : ℝ) (t : List ℝ) :
    nearestBy d (a :: t) ∈ a :: t := by
  obtain ⟨-, l1, l2, heq, -⟩ := nearestBy_spec d a t
  have h : nearestBy d (a :: t) ∈ l1 ++ nearestBy d (a :: t) :: l2 :=
    List.mem_append_right _ (List.mem_cons_self _ _)
  rwa [← heq] at h

/-- A linear-distance reduce maps a list member to itself. -/
theorem nearestBy_lin_self (v a : ℝ) (t : List ℝ) (hmem : v ∈ a :: t) :
    nearestBy (fun c => |c - v|) (a :: t) = v := by
  obtain ⟨hmin, -⟩ := nearestBy_spec (fun c => |c - v|) a t
  have h0 : |nearestBy (fun c => |c - v|) (a :: t) - v| ≤ 0 := by
    simpa using hmin v hmem
  have := abs_eq_zero.mp (le_antisymm h0 (abs_nonneg _))
  linarith [sub_eq_zero.mp this]

/-- A log2-distance reduce over a positive list maps a positive member to
itself. -/
theorem nearestBy_log_self (v a : ℝ) (t : List ℝ) (hv : 0 < v)
    (hpos : ∀ x ∈ a :: t, 0 < x) (hmem : v ∈ a :: t) :
    nearestBy (fun c => |Real.logb 2 c - Real.logb 2 v|) (a :: t) = v := by
  obtain ⟨hmin, -⟩ := nearestBy_spec (fun c => |Real.logb 2 c - Real.logb 2 v|) a t
  have h0 : |Real.logb 2 (nearestBy (fun c => |Real.logb 2 c - Real.logb 2 v|) (a :: t)) -
      Real.logb 2 v| ≤ 0 := by
    simpa using hmin v hmem
  have hlog := sub_eq_zero.mp (abs_eq_zero.mp (le_antisymm h0 (abs_nonneg _)))
  have hrpos : 0 < nearestBy (fun c => |Real.logb 2 c - Real.logb 2 v|) (a :: t) :=
    hpos _ (nearestBy_mem _ a t)
  calc nearestBy (fun c => |Real.logb 2 c - Real.logb 2 v|) (a :: t)
      = (2 : ℝ) ^ Real.logb 2 (nearestBy (fun c => |Real.logb 2 c - Real.logb 2 v|) (a :: t)) :=
        (Real.rpow_logb two_pos (by norm_num) hrpos).symm
    _ = (2 : ℝ) ^ Real.logb 2 v := by rw [hlog]
    _ = v := Real.rpow_logb two_pos (by norm_num) hv

/-- For positive reals, absolute log2 values compare like the symmetric
ratios: the stop distance from 1 is the larger of `x` and `1/x`. -/
theorem abs_logb_max (x : ℝ) (hx : 0 < x) :
    |Real.logb 2 x| = Real.logb 2 (max x x⁻¹) := by
  rcases le_total 1 x with h | h
  · rw [max_eq_left (le_trans (inv_le_one_of_one_le₀ h) h),
      abs_of_nonneg (Real.logb_nonneg one_lt_two h)]
  · have h1 : x ≤ x⁻¹ := le_trans h (one_le_inv_iff₀.mpr ⟨hx, h⟩)
    rw [max_eq_right h1, Real.logb_inv,
      abs_of_nonpos (Real.logb_nonpos one_lt_two hx.le h)]

/-- Comparison of absolute log2 values reduces to comparison of the
symmetric ratios. -/
theorem abs_logb_lt_iff (x y : ℝ) (hx : 0 < x) (hy : 0 < y) :
    |Real.logb 2 x| < |Real.logb 2 y| ↔ max x x⁻¹ < max y y⁻¹ := by
  rw [abs_logb_max x hx, abs_logb_max y hy]
  exact Real.logb_lt_logb_iff one_lt_two
    (lt_of_lt_of_le hx (le_max_left _ _)) (lt_of_lt_of_le hy (le_max_left _ _))

/-- The log2-distance comparison used by the snapping reduce, rewritten
as a comparison of rational-friendly ratios. -/
theorem logb_dist_lt_iff (v c p : ℝ) (hv : 0 < v) (hc : 0 < c) (hp : 0 < p) :
    |Real.logb 2 c - Real.logb 2 v| < |Real.logb 2 p - Real.logb 2 v| ↔
      max (c / v) (v / c) < max (p / v) (v / p) := by
  rw [← Real.logb_div hc.ne' hv.ne', ← Real.logb_div hp.ne' hv.ne',
    abs_logb_lt_iff _ _ (div_pos hc hv) (div_pos hp hv), inv_div, inv_div]

/-- Folding the log2-distance reduce over casts of positive rationals
agrees with the computable rational mirror fold. -/
theorem foldl_log_cast (v : ℚ) (hv : 0 < v) (l : List ℚ) :
    ∀ a : ℚ, 0 < a → (∀ x ∈ l, 0 < x) →
      (l.map (fun q : ℚ => (q : ℝ))).foldl
          (nearStep (fun c => |Real.logb 2 c - Real.logb 2 (v : ℝ)|)) (a : ℝ)
        = ((l.foldl
            (fun p c => if max (c / v) (v / c) < max (p / v) (v / p) then c else p) a : ℚ) : ℝ) := by
  induction l with
  | nil => intro a _ _; simp
  | cons c t ih =>
    intro a ha hl
    have hc : 0 < c := hl c (by simp)
    have ht : ∀ x ∈ t, 0 < x := fun x hx => hl x (by simp [hx])
    have hcast : ∀ p q : ℚ, ((max (p / q) (q / p) : ℚ) : ℝ) = max ((p : ℝ) / q) ((q : ℝ) / p) := by
      intro p q
      rw [(Rat.cast_strictMono (K := ℝ)).monotone.map_max]
      push_cast
      rfl
    have hcond :
        (|Real.logb 2 ((c : ℚ) : ℝ) - Real.logb 2 (v : ℝ)| <
            |Real.logb 2 ((a : ℚ) : ℝ) - Real.logb 2 (v : ℝ)|) ↔
          max (c / v) (v / c) < max (a / v) (v / a) := by
      rw [logb_dist_lt_iff _ _ _ (by exact_mod_cast hv) (by exact_mod_cast hc)
        (by exact_mod_cast ha)]
      rw [← hcast c v, ← hcast a v]
      exact Rat.cast_lt
    simp only [List.map_cons, List.foldl_cons, nearStep]
    by_cases h : max (c / v) (v / c) < max (a / v) (v / a)
    · rw [if_pos (hcond.mpr h), if_pos h]
      exact ih c hc ht
    · rw [if_neg (fun hh => h (hcond.mp hh)), if_neg h]
      exact ih a ha ht

/-- Folding the linear-distance reduce over casts of rationals agrees
with the computable rational mirror fold. -/
theorem foldl_lin_cast (v : ℚ) (l : List ℚ) :
    ∀ a : ℚ,
      (l.map (fun q : ℚ => (q : ℝ))).foldl
          (nearStep (fun c => |c - (v : ℝ)|)) (a : ℝ)
        = ((l.foldl (fun p c => if |c - v| < |p - v| then c else p) a : ℚ) : ℝ) := by
  induction l with
  | nil => intro a; simp
  | cons c t ih =>
    intro a
    have hcond : (|((c : ℚ) : ℝ) - (v : ℝ)| < |((a : ℚ) : ℝ) - (v : ℝ)|) ↔
        (|c - v| < |a - v|) := by
      rw [← Rat.cast_sub, ← Rat.cast_sub, ← Rat.cast_abs, ← Rat.cast_abs]
      exact Rat.cast_lt
    simp only [List.map_cons, List.foldl_cons, nearStep]
    by_cases h : |c - v| < |a - v|
    · rw [if_pos (hcond.mpr h), if_pos h]
      exact ih c
    · rw [if_neg (fun hh => h (hcond.mp hh)), if_neg h]
      exact ih a

/-- The log2-distance reduce of a cast rational list is computed by
`snapLogQ`. -/
theorem nearestBy_log_q (v a : ℚ) (t : List ℚ) (hv : 0 < v) (ha : 0 < a)
    (ht : ∀ x ∈ t, 0 < x) :
    nearestBy (fun c => |Real.logb 2 c - Real.logb 2 (v : ℝ)|)
        ((a :: t).map (fun q : ℚ => (q : ℝ)))
      = ((snapLogQ v (a :: t) : ℚ) : ℝ) := by
  simp only [List.map_cons, nearestBy, snapLogQ]
  exact foldl_log_cast v hv t a ha ht

/-- The linear-distance reduce of a cast rational list is computed by
`snapLinQ`. -/
theorem nearestBy_lin_q (v a : ℚ) (t : List ℚ) :
    nearestBy (fun c => |c - (v : ℝ)|) ((a :: t).map (fun q : ℚ => (q : ℝ)))
      = ((snapLinQ v (a :: t) : ℚ) : ℝ) := by
  simp only [List.map_cons, nearestBy, snapLinQ]
  exact foldl_lin_cast v t a

/-- The real shutter scale is the cast of its rational mirror. -/
theorem meter1_shutter_cast :
    Meter1.standardShutterSpeeds = shutterScaleQ.map (fun q : ℚ => (q : ℝ)) := by
  norm_num [Meter1.standardShutterSpeeds, shutterScaleQ]

/-- The real aperture scale of the composable is the cast of its rational
mirror. -/
theorem meter1_aperture_cast :
    Meter1.standardApertureValues = apertureScale1Q.map (fun q : ℚ => (q : ℝ)) := by
  norm_num [Meter1.standardApertureValues, apertureScale1Q]

/-- The real shutter scale of the main view is the cast of its rational
mirror. -/
theorem meter4_shutter_cast :
    Meter4.standardShutterSpeeds = shutterScaleQ.map (fun q : ℚ => (q : ℝ)) := by
  norm_num [Meter4.standardShutterSpeeds, shutterScaleQ]

/-- The real aperture scale of the main view is the cast of its rational
mirror. -/
theorem meter4_aperture_cast :
    Meter4.apertureValues = apertureScale4Q.map (fun q : ℚ => (q : ℝ)) := by
  norm_num [Meter4.apertureValues, apertureScale4Q]

/-- The composable's shutter snap, computed through the rational mirror. -/
theorem shutterSnap1_q (v : ℚ) (hv : 0 < v) :
    Meter1.getStandardShutterSpeed (v : ℝ) = ((snapLogQ v shutterScaleQ : ℚ) : ℝ) := by
  unfold Meter1.getStandardShutterSpeed
  rw [meter1_shutter_cast,
    show shutterScaleQ = (1/8000 : ℚ) ::
      [1/4000, 1/2000, 1/1000, 1/500, 1/250, 1/125,
       1/60, 1/30, 1/15, 1/8, 1/4, 1/2, 1, 2, 4, 8, 15, 30] from rfl]
  exact nearestBy_log_q v _ _ hv (by norm_num) (by intro x hx; fin_cases hx <;> norm_num)

/-- The main view's shutter snap, computed through the rational mirror. -/
theorem shutterSnap4_q (v : ℚ) (hv : 0 < v) :
    Meter4.getStandardShutterSpeed (v : ℝ) = ((snapLogQ v shutterScaleQ : ℚ) : ℝ) := by
  unfold Meter4.getStandardShutterSpeed
  rw [meter4_shutter_cast,
    show shutterScaleQ = (1/8000 : ℚ) ::
      [1/4000, 1/2000, 1/1000, 1/500, 1/250, 1/125,
       1/60, 1/30, 1/15, 1/8, 1/4, 1/2, 1, 2, 4, 8, 15, 30] from rfl]
  exact nearestBy_log_q v _ _ hv (by norm_num) (by intro x hx; fin_cases hx <;> norm_num)

/-- The main view's aperture snap, computed through the rational mirror. -/
theorem apertureSnap4_q (v : ℚ) (hv : 0 < v) :
    Meter4.getStandardAperture (v : ℝ) = ((snapLogQ v apertureScale4Q : ℚ) : ℝ) := by
  unfold Meter4.getStandardAperture
  rw [meter4_aperture_cast,
    show apertureScale4Q = (1 : ℚ) ::
      [1.2, 1.4, 1.8, 2, 2.8, 4, 5.6, 8, 11, 16, 22] from rfl]
  exact nearestBy_log_q v _ _ hv (by norm_num) (by intro x hx; fin_cases hx <;> norm_num)

/-- The composable's aperture snap, computed through the rational mirror. -/
theorem apertureSnap1_q (v : ℚ) :
    Meter1.getStandardApertureValue (v : ℝ) = ((snapLinQ v apertureScale1Q : ℚ) : ℝ) := by
  unfold Meter1.getStandardApertureValue
  rw [meter1_aperture_cast,
    show apertureScale1Q = (1 : ℚ) ::
      [1.4, 2, 2.8, 4, 5.6, 8, 11, 16, 22] from rfl]
  exact nearestBy_lin_q v _ _

/-- On a nonempty list the reduce result attains the minimal distance. -/
theorem nearestBy_min_all (d : ℝ → ℝ) (l : List ℝ) (hl : l ≠ []) :
    ∀ x ∈ l, d (nearestBy d l) ≤ d x := by
  cases l with
  | nil => exact absurd rfl hl
  | cons a t => exact (nearestBy_spec d a t).1

/-- On a nonempty list the reduce result is the earliest entry attaining
the minimal distance. -/
theorem nearestBy_first_all (d : ℝ → ℝ) (l : List ℝ) (hl : l ≠ []) :
    ∃ l1 l2, l = l1 ++ nearestBy d l :: l2 ∧ ∀ x ∈ l1, d (nearestBy d l) < d x := by
  cases l with
  | nil => exact absurd rfl hl
  | cons a t => exact (nearestBy_spec d a t).2

/-- On a nonempty list the reduce result is a list element. -/
theorem nearestBy_mem_all (d : ℝ → ℝ) (l : List ℝ) (hl : l ≠ []) :
    nearestBy d l ∈ l := by
  cases l with
  | nil => exact absurd rfl hl
  | cons a t => exact nearestBy_mem d a t

/-- A linear-distance reduce maps a member of a nonempty list to itself. -/
theorem nearestBy_lin_self_all (v : ℝ) (l : List ℝ) (hmem : v ∈ l) :
    nearestBy (fun c => |c - v|) l = v := by
  cases l with
  | nil => exact absurd hmem (List.not_mem_nil v)
  | cons a t => exact nearestBy_lin_self v a t hmem

/-- A log2-distance reduce over a positive nonempty list maps a positive
member to itself. -/
theorem nearestBy_log_self_all (v : ℝ) (l : List ℝ) (hv : 0 < v)
    (hpos : ∀ x ∈ l, 0 < x) (hmem : v ∈ l) :
    nearestBy (fun c => |Real.logb 2 c - Real.logb 2 v|) l = v := by
  cases l with
  | nil => exact absurd hmem (List.not_mem_nil v)
  | cons a t => exact nearestBy_log_self v a t hv hpos hmem

/-- Every entry of the composable's shutter scale is positive. -/
theorem meter1_shutter_pos : ∀ x ∈ Meter1.standardShutterSpeeds, 0 < x := by
  intro x hx
  unfold Meter1.standardShutterSpeeds at hx
  fin_cases hx <;> norm_num

/-- Every entry of the composable's shutter scale lies in the valid
shutter range. -/
theorem meter1_shutter_range : ∀ x ∈ Meter1.standardShutterSpeeds, 1/8000 ≤ x ∧ x ≤ 30 := by
  intro x hx
  unfold Meter1.standardShutterSpeeds at hx
  fin_cases hx <;> norm_num

/-- Every entry of the composable's aperture scale is positive. -/
theorem meter1_aperture_pos : ∀ x ∈ Meter1.standardApertureValues, 0 < x := by
  intro x hx
  unfold Meter1.standardApertureValues at hx
  fin_cases hx <;> norm_num

/-- Every entry of the composable's aperture scale lies in the valid
aperture range. -/
theorem meter1_aperture_range : ∀ x ∈ Meter1.standardApertureValues, 1 ≤ x ∧ x ≤ 22 := by
  intro x hx
  unfold Meter1.standardApertureValues at hx
  fin_cases hx <;> norm_num

/-- Every entry of the main view's shutter scale is positive. -/
theorem meter4_shutter_pos : ∀ x ∈ Meter4.standardShutterSpeeds, 0 < x := by
  intro x hx
  unfold Meter4.standardShutterSpeeds at hx
  fin_cases hx <;> norm_num

/-- Every entry of the main view's aperture scale is positive. -/
theorem meter4_aperture_pos : ∀ x ∈ Meter4.apertureValues, 0 < x := by
  intro x hx
  unfold Meter4.apertureValues at hx
  fin_cases hx <;> norm_num

/-- Rational computation: the shutter scale entry log2-nearest to 1/16 is
1/15 (log2 distance 0.093 stops, against 0.907 for 1/30). -/
theorem snapQ_one_sixteenth : snapLogQ (1/16) shutterScaleQ = 1/15 := by
  norm_num [snapLogQ, shutterScaleQ, List.foldl, max_def]

/-- Rational computation: the shutter scale entry log2-nearest to 1/61 is
1/60. -/
theorem snapQ_one_sixty_first : snapLogQ (1/61) shutterScaleQ = 1/60 := by
  norm_num [snapLogQ, shutterScaleQ, List.foldl, max_def]

/-- Rational computation: the shutter scale entry log2-nearest to 64/3 is
30. -/
theorem snapQ_sixty_four_thirds : snapLogQ (64/3) shutterScaleQ = 30 := by
  norm_num [snapLogQ, shutterScaleQ, List.foldl, max_def]

/-- Rational computation: the shutter scale entry log2-nearest to 8/225 is
1/30. -/
theorem snapQ_eight_225 : snapLogQ (8/225) shutterScaleQ = 1/30 := by
  norm_num [snapLogQ, shutterScaleQ, List.foldl, max_def]

/-- Rational computation: the main view's aperture entry log2-nearest to 5
is 5.6. -/
theorem snapQ_five_log : snapLogQ 5 apertureScale4Q = 28/5 := by
  norm_num [snapLogQ, apertureScale4Q, List.foldl, max_def]

/-- Rational computation: the composable's aperture entry linearly nearest
to 5 is 5.6. -/
theorem snapQ_five_lin : snapLinQ 5 apertureScale1Q = 28/5 := by
  norm_num [snapLinQ, apertureScale1Q, List.foldl, abs_eq_max_neg, max_def]

/-- Rational computation: the composable's aperture entry linearly nearest
to 1.69 is 1.4 (2.0 would be the log2-nearest one). -/
theorem snapQ_onesixtynine_lin : snapLinQ (169/100) apertureScale1Q = 7/5 := by
  norm_num [snapLinQ, apertureScale1Q, List.foldl, abs_eq_max_neg, max_def]

/-- The composable's shutter snap at the concrete raw value 1/16. -/
theorem shutter1_snap_one_sixteenth : Meter1.getStandardShutterSpeed ((1 : ℝ)/16) = 1/15 := by
  rw [show ((1 : ℝ)/16) = ((1/16 : ℚ) : ℝ) by norm_num,
    shutterSnap1_q _ (by norm_num), snapQ_one_sixteenth]
  norm_num

/-- The composable's shutter snap at the concrete raw value 1/61. -/
theorem shutter1_snap_one_sixty_first : Meter1.getStandardShutterSpeed ((1 : ℝ)/61) = 1/60 := by
  rw [show ((1 : ℝ)/61) = ((1/61 : ℚ) : ℝ) by norm_num,
    shutterSnap1_q _ (by norm_num), snapQ_one_sixty_first]
  norm_num

/-- The main view's shutter snap at the concrete raw value 64/3. -/
theorem shutter4_snap_sixty_four_thirds : Meter4.getStandardShutterSpeed ((64 : ℝ)/3) = 30 := by
  rw [show ((64 : ℝ)/3) = ((64/3 : ℚ) : ℝ) by norm_num,
    shutterSnap4_q _ (by norm_num), snapQ_sixty_four_thirds]
  norm_num

/-- The main view's shutter snap at the concrete raw value 8/225. -/
theorem shutter4_snap_eight_225 : Meter4.getStandardShutterSpeed ((8 : ℝ)/225) = 1/30 := by
  rw [show ((8 : ℝ)/225) = ((8/225 : ℚ) : ℝ) by norm_num,
    shutterSnap4_q _ (by norm_num), snapQ_eight_225]
  norm_num

/-- The main view's aperture snap at the concrete raw value 5. -/
theorem aperture4_snap_five : Meter4.getStandardAperture (5 : ℝ) = 5.6 := by
  rw [show (5 : ℝ) = ((5 : ℚ) : ℝ) by norm_num,
    apertureSnap4_q _ (by norm_num), snapQ_five_log]
  norm_num

/-- The composable's aperture snap at the concrete raw value 5. -/
theorem aperture1_snap_five : Meter1.getStandardApertureValue (5 : ℝ) = 5.6 := by
  rw [show (5 : ℝ) = ((5 : ℚ) : ℝ) by norm_num, apertureSnap1_q _, snapQ_five_lin]
  norm_num

/-- The composable's aperture snap at the concrete raw value 1.69. -/
theorem aperture1_snap_onesixtynine : Meter1.getStandardApertureValue (1.69 : ℝ) = 1.4 := by
  rw [show (1.69 : ℝ) = ((169/100 : ℚ) : ℝ) by norm_num,
    apertureSnap1_q _, snapQ_onesixtynine_lin]
  norm_num

/-- Closed form of `calculateEV`: all samples are identical, so for any
positive sample count the average equals the single measurement
`log2(clamp(luminance) * 100 * 1.2)`. -/
theorem calculateEV_closed (l : ℝ) (n : ℕ) (hn : n ≠ 0) :
    Meter1.calculateEV l n = Real.logb 2 (max 0.001 (min 0.95 l) * 120) := by
  unfold Meter1.calculateEV
  simp only [Finset.sum_const, Finset.card_range, nsmul_eq_mul]
  rw [mul_div_cancel_left₀ _ (by exact_mod_cast hn : (n : ℝ) ≠ 0)]
  norm_num [Meter1.baseCalibrationFactor, Meter1.deviceBrightnessCompensation]
  ring_nf

/-- Gamma correction of a nonnegative channel is nonnegative. -/
theorem gammaCorrect_nonneg (c : ℝ) (hc : 0 ≤ c) : 0 ≤ Meter4.gammaCorrect c := by
  unfold Meter4.gammaCorrect
  split_ifs
  · positivity
  · exact Real.rpow_nonneg (by positivity) _

/-- Gamma correction of a channel in [0, 1] is at most 1. -/
theorem gammaCorrect_le_one (c : ℝ) (hc0 : 0 ≤ c) (hc1 : c ≤ 1) :
    Meter4.gammaCorrect c ≤ 1 := by
  unfold Meter4.gammaCorrect
  split_ifs
  · rw [div_le_one (by norm_num)]
    linarith
  · exact Real.rpow_le_one (by positivity) (by rw [div_le_one (by norm_num)]; linarith)
      (by norm_num)

/-- Gamma correction maps the black channel to 0. -/
theorem gammaCorrect_zero : Meter4.gammaCorrect 0 = 0 := by
  unfold Meter4.gammaCorrect
  norm_num

/-- Gamma correction maps the white channel to 1. -/
theorem gammaCorrect_one : Meter4.gammaCorrect 1 = 1 := by
  unfold Meter4.gammaCorrect
  rw [if_neg (by norm_num), show ((1 : ℝ) + 0.055) / 1.055 = 1 by norm_num, Real.one_rpow]

/-- Every weighted pixel luminance of a valid buffer lies in [0, 1]. -/
theorem weightedPixelLuminance_bounds (f : Meter4.Frame) (hd : ∀ i, f.data i ≤ 255)
    (x y : ℕ) :
    0 ≤ Meter4.weightedPixelLuminance f x y ∧ Meter4.weightedPixelLuminance f x y ≤ 1 := by
  have hg : ∀ j : ℕ, 0 ≤ Meter4.gammaCorrect ((f.data j : ℝ) / 255) ∧
      Meter4.gammaCorrect ((f.data j : ℝ) / 255) ≤ 1 := by
    intro j
    have h0 : (0 : ℝ) ≤ (f.data j : ℝ) / 255 := by positivity
    have h1 : (f.data j : ℝ) / 255 ≤ 1 := by
      rw [div_le_one (by norm_num)]
      exact_mod_cast hd j
    exact ⟨gammaCorrect_nonneg _ h0, gammaCorrect_le_one _ h0 h1⟩
  obtain ⟨hr0, hr1⟩ := hg ((y * f.width + x) * 4)
  obtain ⟨hg0, hg1⟩ := hg ((y * f.width + x) * 4 + 1)
  obtain ⟨hb0, hb1⟩ := hg ((y * f.width + x) * 4 + 2)
  simp only [Meter4.weightedPixelLuminance]
  constructor
  · apply mul_nonneg (by linarith)
    split_ifs <;> norm_num
  · apply mul_le_one₀ (by linarith)
    · split_ifs <;> norm_num
    · split_ifs <;> norm_num

/-- The average luminance of a valid nonempty buffer lies in [0, 1]. -/
theorem averageLuminance_bounds (f : Meter4.Frame) (hd : ∀ i, f.data i ≤ 255)
    (hw : 0 < f.width) (hh : 0 < f.height) :
    0 ≤ Meter4.averageLuminance f ∧ Meter4.averageLuminance f ≤ 1 := by
  have hden : (0 : ℝ) < ((f.width * f.height : ℕ) : ℝ) := by
    exact_mod_cast Nat.mul_pos hw hh
  have h0 : 0 ≤ ∑ y ∈ Finset.range f.height, ∑ x ∈ Finset.range f.width,
      Meter4.weightedPixelLuminance f x y :=
    Finset.sum_nonneg fun y _ =>
      Finset.sum_nonneg fun x _ => (weightedPixelLuminance_bounds f hd x y).1
  have h1 : (∑ y ∈ Finset.range f.height, ∑ x ∈ Finset.range f.width,
      Meter4.weightedPixelLuminance f x y) ≤ (f.width : ℝ) * f.height := by
    calc (∑ y ∈ Finset.range f.height, ∑ x ∈ Finset.range f.width,
        Meter4.weightedPixelLuminance f x y)
        ≤ ∑ _y ∈ Finset.range f.height, ∑ _x ∈ Finset.range f.width, (1 : ℝ) :=
          Finset.sum_le_sum fun y _ =>
            Finset.sum_le_sum fun x _ => (weightedPixelLuminance_bounds f hd x y).2
      _ = (f.width : ℝ) * f.height := by
          simp [Finset.sum_const, Finset.card_range, nsmul_eq_mul, mul_comm]
  unfold Meter4.averageLuminance
  refine ⟨div_nonneg h0 hden.le, ?_⟩
  rw [div_le_one hden]
  push_cast
  linarith

/-- An all-black buffer has average luminance 0 (before any clamping). -/
theorem averageLuminance_black (f : Meter4.Frame) (hblack : ∀ i, f.data i = 0) :
    Meter4.averageLuminance f = 0 := by
  have hz : ∀ x y : ℕ, Meter4.weightedPixelLuminance f x y = 0 := by
    intro x y
    simp only [Meter4.weightedPixelLuminance, hblack]
    norm_num [gammaCorrect_zero]
  unfold Meter4.averageLuminance
  simp [hz]

/-- The single all-white pixel of a 1-by-1 buffer is a center pixel, so
its luminance is weighted by 0.6, and the average is 0.6 and not near 1. -/
theorem averageLuminance_white11 :
    Meter4.averageLuminance ⟨1, 1, fun _ => 255⟩ = 3/5 := by
  have hfl3 : ⌊((1 : ℕ) : ℝ) * 0.3⌋₊ = 0 := by
    rw [Nat.cast_one, one_mul]
    exact Nat.floor_eq_zero.mpr (by norm_num)
  have hfl4 : ⌊((1 : ℕ) : ℝ) * 0.4⌋₊ = 0 := by
    rw [Nat.cast_one, one_mul]
    exact Nat.floor_eq_zero.mpr (by norm_num)
  have hpixel : Meter4.weightedPixelLuminance ⟨1, 1, fun _ => 255⟩ 0 0 = 3/5 := by
    simp only [Meter4.weightedPixelLuminance, hfl3, hfl4]
    rw [show ((255 : ℕ) : ℝ) / 255 = 1 by norm_num, gammaCorrect_one]
    norm_num
  unfold Meter4.averageLuminance
  simp [Finset.sum_range_one, hpixel]

/-- Two raised to minus the log2 of a positive real is its inverse. -/
theorem rpow_neg_logb (x : ℝ) (hx : 0 < x) : (2 : ℝ) ^ (-Real.logb 2 x) = x⁻¹ := by
  rw [Real.rpow_neg (by norm_num), Real.rpow_logb (by norm_num) (by norm_num) hx]

/-- The measured EV of the all-black 1-by-1 frame: the zero luminance is
clamped up to 0.001, giving log2(0.001 * 100 * 15) = log2(3/2). -/
theorem measuredEV_black11 :
    Meter4.measuredEV ⟨1, 1, fun _ => 0⟩ = Real.logb 2 (3/2) := by
  unfold Meter4.measuredEV Meter4.singleMeasurement
  rw [averageLuminance_black _ fun i => rfl]
  simp only [Finset.sum_const, Finset.card_range, nsmul_eq_mul]
  rw [min_eq_right (by norm_num : (0 : ℝ) ≤ 0.95),
    max_eq_left (by norm_num : (0 : ℝ) ≤ 0.001)]
  norm_num

/-- The measured EV of the all-white 1-by-1 frame: the 0.6 average
luminance survives clamping, giving log2(0.6 * 100 * 15) = log2(900). -/
theorem measuredEV_white11 :
    Meter4.measuredEV ⟨1, 1, fun _ => 255⟩ = Real.logb 2 900 := by
  unfold Meter4.measuredEV Meter4.singleMeasurement
  rw [averageLuminance_white11]
  simp only [Finset.sum_const, Finset.card_range, nsmul_eq_mul]
  rw [min_eq_right (by norm_num : (3/5 : ℝ) ≤ 0.95),
    max_eq_right (by norm_num : (0.001 : ℝ) ≤ 3/5)]
  norm_num

/-- The composable's shutter snap always returns a positive value (an
entry of the shutter table). -/
theorem shutter1_snap_pos (v : ℝ) : 0 < Meter1.getStandardShutterSpeed v := by
  have hne : Meter1.standardShutterSpeeds ≠ [] := by
    unfold Meter1.standardShutterSpeeds
    simp
  exact meter1_shutter_pos _ (nearestBy_mem_all _ _ hne)

/-- The composable's aperture snap always returns a positive value (an
entry of the aperture table). -/
theorem aperture1_snap_pos (v : ℝ) : 0 < Meter1.getStandardApertureValue v := by
  have hne : Meter1.standardApertureValues ≠ [] := by
    unfold Meter1.standardApertureValues
    simp
  exact meter1_aperture_pos _ (nearestBy_mem_all _ _ hne)

/-- In aperture-priority mode `updateExposureParams` reduces to the
range-gated shutter solve. -/
theorem updateExposureParams_aperture (s : Meter1.State) (ev : ℝ)
    (hmode : s.typeFlag = MeterMode.aperture) :
    Meter1.updateExposureParams s ev =
      if Meter1.shutterRawValue s ev < 1/8000 ∨ Meter1.shutterRawValue s ev > 30 then
        { s with currentEV := ev, shutterSpeed := 0 }
      else
        { s with currentEV := ev,
                 shutterSpeed := Meter1.getStandardShutterSpeed (Meter1.shutterRawValue s ev) } := by
  simp only [Meter1.updateExposureParams]
  rw [if_pos hmode]
  rfl

/-- In shutter-priority mode with a positive held shutter speed,
`updateExposureParams` reduces to the range-gated aperture solve. -/
theorem updateExposureParams_shutter (s : Meter1.State) (ev : ℝ)
    (hmode : s.typeFlag = MeterMode.shutter) (hpos : s.shutterSpeed > 0) :
    Meter1.updateExposureParams s ev =
      if Meter1.apertureRawValue s ev < 1.0 ∨ Meter1.apertureRawValue s ev > 22 then
        { s with currentEV := ev, aperture := 0 }
      else
        { s with currentEV := ev,
                 aperture := Meter1.getStandardApertureValue (Meter1.apertureRawValue s ev) } := by
  simp only [Meter1.updateExposureParams]
  rw [if_neg (by rw [hmode]; exact fun h => MeterMode.noConfusion h), if_pos ⟨hmode, hpos⟩]
  rfl

/-- C1: in aperture-priority mode the solver writes the EV, computes
shutterRaw = 2^(-(EV - compensation)) * (100/ISO) * aperture^2, returns
the invalid sentinel `shutterSpeed = 0` exactly when shutterRaw is below
1/8000 or strictly above 30 (so exactly 30 is valid and anything above,
e.g. 30.0001, is not), and otherwise returns shutterRaw snapped to the
standard shutter scale. -/
theorem c1_aperture_priority_solve (s : Meter1.State) (ev : ℝ)
    (hmode : s.typeFlag = MeterMode.aperture) (_hiso : 0 < s.iso) :
    ((Meter1.updateExposureParams s ev).currentEV = ev) ∧
    ((Meter1.updateExposureParams s ev).shutterSpeed = 0 ↔
      Meter1.shutterRawValue s ev < 1/8000 ∨ Meter1.shutterRawValue s ev > 30) ∧
    (1/8000 ≤ Meter1.shutterRawValue s ev → Meter1.shutterRawValue s ev ≤ 30 →
      (Meter1.updateExposureParams s ev).shutterSpeed =
        Meter1.getStandardShutterSpeed (Meter1.shutterRawValue s ev)) := by
  rw [updateExposureParams_aperture s ev hmode]
  split_ifs with hc
  · refine ⟨rfl, iff_of_true rfl hc, ?_⟩
    intro h1 h2
    rcases hc with hc | hc <;> linarith
  · exact ⟨rfl, iff_of_false (ne_of_gt (shutter1_snap_pos _)) hc, fun _ _ => rfl⟩

/-- C1 witness: the spec's invalid scenario EV = -5, ISO = 100,
aperture = 22 instantiates the aperture-priority solver theorem. -/
theorem c1_witness :
    ((Meter1.updateExposureParams ⟨0, 22, 0, 100, 0, MeterMode.aperture⟩ (-5)).currentEV = -5) ∧
    ((Meter1.updateExposureParams ⟨0, 22, 0, 100, 0, MeterMode.aperture⟩ (-5)).shutterSpeed = 0 ↔
      Meter1.shutterRawValue ⟨0, 22, 0, 100, 0, MeterMode.aperture⟩ (-5) < 1/8000 ∨
        Meter1.shutterRawValue ⟨0, 22, 0, 100, 0, MeterMode.aperture⟩ (-5) > 30) ∧
    (1/8000 ≤ Meter1.shutterRawValue ⟨0, 22, 0, 100, 0, MeterMode.aperture⟩ (-5) →
      Meter1.shutterRawValue ⟨0, 22, 0, 100, 0, MeterMode.aperture⟩ (-5) ≤ 30 →
      (Meter1.updateExposureParams ⟨0, 22, 0, 100, 0, MeterMode.aperture⟩ (-5)).shutterSpeed =
        Meter1.getStandardShutterSpeed
          (Meter1.shutterRawValue ⟨0, 22, 0, 100, 0, MeterMode.aperture⟩ (-5))) :=
  c1_aperture_priority_solve ⟨0, 22, 0, 100, 0, MeterMode.aperture⟩ (-5) rfl (by norm_num)

/-- C2: in shutter-priority mode with a positive held shutter speed the
solver computes apertureRaw = sqrt(shutter * (100/ISO) * 2^(EV -
compensation)), returns the invalid sentinel `aperture = 0` exactly when
apertureRaw is below 1 or strictly above 22, and otherwise returns
apertureRaw snapped to the nearest standard aperture value. -/
theorem c2_shutter_priority_solve (s : Meter1.State) (ev : ℝ)
    (hmode : s.typeFlag = MeterMode.shutter) (hpos : s.shutterSpeed > 0) (_hiso : 0 < s.iso) :
    ((Meter1.updateExposureParams s ev).currentEV = ev) ∧
    ((Meter1.updateExposureParams s ev).aperture = 0 ↔
      Meter1.apertureRawValue s ev < 1.0 ∨ Meter1.apertureRawValue s ev > 22) ∧
    (1.0 ≤ Meter1.apertureRawValue s ev → Meter1.apertureRawValue s ev ≤ 22 →
      (Meter1.updateExposureParams s ev).aperture =
        Meter1.getStandardApertureValue (Meter1.apertureRawValue s ev)) := by
  rw [updateExposureParams_shutter s ev hmode hpos]
  split_ifs with hc
  · refine ⟨rfl, iff_of_true rfl hc, ?_⟩
    intro h1 h2
    rcases hc with hc | hc <;> linarith
  · exact ⟨rfl, iff_of_false (ne_of_gt (aperture1_snap_pos _)) hc, fun _ _ => rfl⟩

/-- C2 witness: EV = 4, ISO = 100, compensation = 0, held shutter 1/4
instantiates the shutter-priority solver theorem. -/
theorem c2_witness :
    ((Meter1.updateExposureParams ⟨0, 2, 1/4, 100, 0, MeterMode.shutter⟩ 4).currentEV = 4) ∧
    ((Meter1.updateExposureParams ⟨0, 2, 1/4, 100, 0, MeterMode.shutter⟩ 4).aperture = 0 ↔
      Meter1.apertureRawValue ⟨0, 2, 1/4, 100, 0, MeterMode.shutter⟩ 4 < 1.0 ∨
        Meter1.apertureRawValue ⟨0, 2, 1/4, 100, 0, MeterMode.shutter⟩ 4 > 22) ∧
    (1.0 ≤ Meter1.apertureRawValue ⟨0, 2, 1/4, 100, 0, MeterMode.shutter⟩ 4 →
      Meter1.apertureRawValue ⟨0, 2, 1/4, 100, 0, MeterMode.shutter⟩ 4 ≤ 22 →
      (Meter1.updateExposureParams ⟨0, 2, 1/4, 100, 0, MeterMode.shutter⟩ 4).aperture =
        Meter1.getStandardApertureValue
          (Meter1.apertureRawValue ⟨0, 2, 1/4, 100, 0, MeterMode.shutter⟩ 4)) :=
  c2_shutter_priority_solve ⟨0, 2, 1/4, 100, 0, MeterMode.shutter⟩ 4 rfl (by norm_num)
    (by norm_num)

/-- C9: the sample count does not affect the computed EV: for any
luminance and any sample count of at least 1, `calculateEV` equals the
single-sample value, because every iteration recomputes the identical
measurement before averaging. -/
theorem c9_samples_irrelevant (l : ℝ) (n : ℕ) (hn : 1 ≤ n) :
    Meter1.calculateEV l n = Meter1.calculateEV l 1 := by
  rw [calculateEV_closed l n (by omega), calculateEV_closed l 1 (by norm_num)]

/-- C9 witness: three samples give the same EV as one sample at
luminance 0.5. -/
theorem c9_witness : Meter1.calculateEV 0.5 3 = Meter1.calculateEV 0.5 1 :=
  c9_samples_irrelevant 0.5 3 (by norm_num)

/-- C10: in shutter-priority mode with the sentinel shutter speed 0,
`updateExposureParams` writes only `currentEV`: both the aperture and
the shutter speed are left unchanged because the solve branch is guarded
by `shutterSpeed > 0`. -/
theorem c10_sentinel_skips_solve (s : Meter1.State) (ev : ℝ)
    (hmode : s.typeFlag = MeterMode.shutter) (hzero : s.shutterSpeed = 0) :
    ((Meter1.updateExposureParams s ev).currentEV = ev) ∧
    ((Meter1.updateExposureParams s ev).aperture = s.aperture) ∧
    ((Meter1.updateExposureParams s ev).shutterSpeed = s.shutterSpeed) := by
  have key : Meter1.updateExposureParams s ev = { s with currentEV := ev } := by
    simp only [Meter1.updateExposureParams]
    rw [if_neg (by rw [hmode]; exact fun h => MeterMode.noConfusion h),
      if_neg (by rw [hzero]; exact fun h => absurd h.2 (by norm_num))]
  rw [key]
  exact ⟨rfl, rfl, rfl⟩

/-- C10 witness: a shutter-priority state with shutter sentinel 0 keeps
aperture 4 and shutter 0 while the EV becomes 7. -/
theorem c10_witness :
    ((Meter1.updateExposureParams ⟨0, 4, 0, 100, 0, MeterMode.shutter⟩ 7).currentEV = 7) ∧
    ((Meter1.updateExposureParams ⟨0, 4, 0, 100, 0, MeterMode.shutter⟩ 7).aperture = 4) ∧
    ((Meter1.updateExposureParams ⟨0, 4, 0, 100, 0, MeterMode.shutter⟩ 7).shutterSpeed = 0) :=
  c10_sentinel_skips_solve ⟨0, 4, 0, 100, 0, MeterMode.shutter⟩ 7 rfl rfl

/-- C6 counterexample: the claim of strict monotonicity fails: 0.96 and
0.97 are clamped to the same highlight ceiling 0.95, so their EVs are
equal although the luminances differ. -/
theorem c6_counterexample :
    (0.96 : ℝ) < 0.97 ∧ Meter1.calculateEV 0.96 5 = Meter1.calculateEV 0.97 5 := by
  refine ⟨by norm_num, ?_⟩
  rw [calculateEV_closed _ _ (by norm_num), calculateEV_closed _ _ (by norm_num),
    min_eq_left (by norm_num : (0.95 : ℝ) ≤ 0.96),
    min_eq_left (by norm_num : (0.95 : ℝ) ≤ 0.97)]

/-- C6 amended: holding the calibration profile fixed, `calculateEV` is
monotonically nondecreasing in luminance, and strictly increasing
between luminances that are not both clamped to the same side of the
clamp window [0.001, 0.95]. -/
theorem c6_ev_monotone :
    (∀ (l1 l2 : ℝ) (n : ℕ), l1 ≤ l2 → Meter1.calculateEV l1 n ≤ Meter1.calculateEV l2 n) ∧
    (∀ (l1 l2 : ℝ) (n : ℕ), 1 ≤ n → l1 < l2 → 0.001 < l2 → l1 < 0.95 →
      Meter1.calculateEV l1 n < Meter1.calculateEV l2 n) := by
  have hpos : ∀ l : ℝ, (0 : ℝ) < max 0.001 (min 0.95 l) * 120 := by
    intro l
    have h1 : (0.001 : ℝ) ≤ max 0.001 (min 0.95 l) := le_max_left _ _
    nlinarith
  constructor
  · intro l1 l2 n h
    rcases Nat.eq_zero_or_pos n with rfl | hn
    · unfold Meter1.calculateEV
      simp
    · rw [calculateEV_closed _ _ hn.ne', calculateEV_closed _ _ hn.ne']
      apply Real.logb_le_logb_of_le one_lt_two (hpos l1)
      have hmin : min 0.95 l1 ≤ min 0.95 l2 := min_le_min le_rfl h
      have hmax : max 0.001 (min 0.95 l1) ≤ max 0.001 (min 0.95 l2) :=
        max_le_max le_rfl hmin
      nlinarith
  · intro l1 l2 n hn h hl2 hl1
    rw [calculateEV_closed _ _ (by omega), calculateEV_closed _ _ (by omega)]
    apply Real.logb_lt_logb one_lt_two (hpos l1)
    apply mul_lt_mul_of_pos_right ?_ (by norm_num : (0 : ℝ) < 120)
    rcases le_or_lt l2 0.95 with h2 | h2
    · rw [min_eq_right h2, max_eq_right hl2.le]
      exact max_lt hl2 (lt_of_le_of_lt (min_le_right _ _) h)
    · rw [min_eq_left h2.le, max_eq_right (by norm_num : (0.001 : ℝ) ≤ 0.95)]
      exact max_lt (by norm_num) (lt_of_le_of_lt (min_le_right _ _) hl1)

/-- C6 witness: luminances 0.1 and 0.2, five samples, give strictly
increasing EVs (and instantiate the nondecreasing part too). -/
theorem c6_witness :
    Meter1.calculateEV 0.1 5 ≤ Meter1.calculateEV 0.2 5 ∧
    Meter1.calculateEV 0.1 5 < Meter1.calculateEV 0.2 5 :=
  ⟨c6_ev_monotone.1 0.1 0.2 5 (by norm_num),
   c6_ev_monotone.2 0.1 0.2 5 (by norm_num) (by norm_num) (by norm_num) (by norm_num)⟩

/-- The composable's shutter snap maps a shutter-table entry to itself. -/
theorem shutter1_snap_mem (v : ℝ) (hv : 0 < v)
    (hmem : v ∈ Meter1.standardShutterSpeeds) :
    Meter1.getStandardShutterSpeed v = v :=
  nearestBy_log_self_all v _ hv meter1_shutter_pos hmem

/-- The composable's aperture snap maps an aperture-table entry to
itself. -/
theorem aperture1_snap_mem (v : ℝ) (hmem : v ∈ Meter1.standardApertureValues) :
    Meter1.getStandardApertureValue v = v :=
  nearestBy_lin_self_all v _ hmem

/-- C3 counterexample: the composable's aperture snap does not minimize
log2 distance: at input 1.69 it returns 1.4 (the linear nearest), while
the table entry 2.0 is strictly log2-closer. -/
theorem c3_counterexample :
    Meter1.getStandardApertureValue 1.69 = 1.4 ∧
    (2 : ℝ) ∈ Meter1.standardApertureValues ∧
    |Real.logb 2 2 - Real.logb 2 1.69| < |Real.logb 2 1.4 - Real.logb 2 1.69| := by
  refine ⟨aperture1_snap_onesixtynine, by norm_num [Meter1.standardApertureValues], ?_⟩
  rw [logb_dist_lt_iff 1.69 2 1.4 (by norm_num) (by norm_num) (by norm_num),
    max_eq_left (by norm_num : (1.69 : ℝ)/2 ≤ 2/1.69),
    max_eq_right (by norm_num : (1.4 : ℝ)/1.69 ≤ 1.69/1.4)]
  norm_num

/-- C3 amended: each snap helper returns the earliest table entry that
minimizes its own distance: log2 distance for the shutter snap (both
files) and for the main view's aperture snap, but linear distance for
the composable's aperture snap; exact ties go to the earlier (smaller)
entry; snapping 1/61 gives 1/60 on the shutter scale, and snapping 5.0
gives 5.6 on both aperture scales. -/
theorem c3_snapping_amended :
    (∀ v : ℝ, 0 < v →
      (∀ x ∈ Meter1.standardShutterSpeeds,
        |Real.logb 2 (Meter1.getStandardShutterSpeed v) - Real.logb 2 v| ≤
          |Real.logb 2 x - Real.logb 2 v|) ∧
      ∃ l1 l2, Meter1.standardShutterSpeeds = l1 ++ Meter1.getStandardShutterSpeed v :: l2 ∧
        ∀ x ∈ l1, |Real.logb 2 (Meter1.getStandardShutterSpeed v) - Real.logb 2 v| <
          |Real.logb 2 x - Real.logb 2 v|) ∧
    (∀ v : ℝ,
      (∀ x ∈ Meter1.standardApertureValues,
        |Meter1.getStandardApertureValue v - v| ≤ |x - v|) ∧
      ∃ l1 l2, Meter1.standardApertureValues = l1 ++ Meter1.getStandardApertureValue v :: l2 ∧
        ∀ x ∈ l1, |Meter1.getStandardApertureValue v - v| < |x - v|) ∧
    (∀ v : ℝ, 0 < v →
      (∀ x ∈ Meter4.apertureValues,
        |Real.logb 2 (Meter4.getStandardAperture v) - Real.logb 2 v| ≤
          |Real.logb 2 x - Real.logb 2 v|) ∧
      ∃ l1 l2, Meter4.apertureValues = l1 ++ Meter4.getStandardAperture v :: l2 ∧
        ∀ x ∈ l1, |Real.logb 2 (Meter4.getStandardAperture v) - Real.logb 2 v| <
          |Real.logb 2 x - Real.logb 2 v|) ∧
    Meter1.getStandardShutterSpeed (1/61) = 1/60 ∧
    Meter1.getStandardApertureValue 5 = 5.6 ∧
    Meter4.getStandardAperture 5 = 5.6 := by
  have hne1 : Meter1.standardShutterSpeeds ≠ [] := by
    unfold Meter1.standardShutterSpeeds
    simp
  have hne2 : Meter1.standardApertureValues ≠ [] := by
    unfold Meter1.standardApertureValues
    simp
  have hne3 : Meter4.apertureValues ≠ [] := by
    unfold Meter4.apertureValues
    simp
  refine ⟨fun v _ => ⟨?_, ?_⟩, fun v => ⟨?_, ?_⟩, fun v _ => ⟨?_, ?_⟩,
    shutter1_snap_one_sixty_first, aperture1_snap_five, aperture4_snap_five⟩
  · exact nearestBy_min_all (fun c => |Real.logb 2 c - Real.logb 2 v|) _ hne1
  · exact nearestBy_first_all (fun c => |Real.logb 2 c - Real.logb 2 v|) _ hne1
  · exact nearestBy_min_all (fun c => |c - v|) _ hne2
  · exact nearestBy_first_all (fun c => |c - v|) _ hne2
  · exact nearestBy_min_all (fun c => |Real.logb 2 c - Real.logb 2 v|) _ hne3
  · exact nearestBy_first_all (fun c => |Real.logb 2 c - Real.logb 2 v|) _ hne3

/-- C3 witness: the argmin property at 1/61 against table entry 1/8000. -/
theorem c3_witness :
    |Real.logb 2 (Meter1.getStandardShutterSpeed (1/61)) - Real.logb 2 (1/61)| ≤
      |Real.logb 2 (1/8000) - Real.logb 2 (1/61)| :=
  (c3_snapping_amended.1 (1/61) (by norm_num)).1 (1/8000)
    (by norm_num [Meter1.standardShutterSpeeds])

/-- Evaluation of the spec's concrete scenario: EV 10, ISO 100, no
compensation, aperture priority at f/8 solves to the snapped shutter of
the raw value 1/16. -/
theorem updateExposure_ev10_iso100_f8 :
    Meter1.updateExposureParams ⟨0, 8, 0, 100, 0, MeterMode.aperture⟩ 10 =
      ⟨10, 8, Meter1.getStandardShutterSpeed (1/16), 100, 0, MeterMode.aperture⟩ := by
  have hraw : Meter1.shutterRawValue ⟨0, 8, 0, 100, 0, MeterMode.aperture⟩ 10 = 1/16 := by
    unfold Meter1.shutterRawValue
    rw [show (-(10 - (0 : ℝ))) = ((-10 : ℤ) : ℝ) by norm_num, Real.rpow_intCast]
    norm_num
  rw [updateExposureParams_aperture _ _ rfl, hraw, if_neg (by norm_num)]

/-- C4 amended: the concrete scenario EV = 10, ISO = 100,
compensation = 0, aperture priority at f/8 gives shutterRaw = 0.0625
and outputs the valid snapped shutter 1/15 s (the log2-nearest table
entry to 1/16, at 0.093 stops against 0.907 stops for 1/30). -/
theorem c4_concrete_scenario :
    Meter1.shutterRawValue ⟨0, 8, 0, 100, 0, MeterMode.aperture⟩ 10 = 0.0625 ∧
    (Meter1.updateExposureParams ⟨0, 8, 0, 100, 0, MeterMode.aperture⟩ 10).shutterSpeed = 1/15 ∧
    (Meter1.updateExposureParams ⟨0, 8, 0, 100, 0, MeterMode.aperture⟩ 10).shutterSpeed ≠ 0 := by
  refine ⟨?_, ?_, ?_⟩
  · unfold Meter1.shutterRawValue
    rw [show (-(10 - (0 : ℝ))) = ((-10 : ℤ) : ℝ) by norm_num, Real.rpow_intCast]
    norm_num
  · rw [updateExposure_ev10_iso100_f8]
    exact shutter1_snap_one_sixteenth
  · rw [updateExposure_ev10_iso100_f8]
    exact ne_of_gt (shutter1_snap_pos _)

/-- C4 counterexample: in the spec's concrete scenario the solver does
not output 1/30 s: the snapped shutter is 1/15 s. -/
theorem c4_not_one_thirtieth :
    (Meter1.updateExposureParams ⟨0, 8, 0, 100, 0, MeterMode.aperture⟩ 10).shutterSpeed ≠
      1/30 := by
  rw [updateExposure_ev10_iso100_f8]
  show Meter1.getStandardShutterSpeed (1/16) ≠ 1/30
  rw [shutter1_snap_one_sixteenth]
  norm_num

/-- C7 counterexample: the round trip does not recover the held aperture
for every ISO: at EV = 3, ISO = 400, compensation = 0, held aperture 2
(a standard aperture), the aperture-priority solve gives the valid
table shutter 1/8, but solving back in shutter priority computes
sqrt((1/8) * (100/400) * 2^3) = 1/2 < 1 and yields the invalid sentinel
aperture 0 - not the held aperture, nor any standard aperture (both
solver formulas scale by 100/ISO instead of inverting it, so the
recovered raw aperture is the held one times 100/ISO). -/
theorem c7_roundtrip_counterexample :
    ((Meter1.updateExposureParams ⟨0, 2, 1, 400, 0, MeterMode.aperture⟩ 3).shutterSpeed = 1/8) ∧
    ((Meter1.updateExposureParams (Meter1.toggleMeteringMode
        (Meter1.updateExposureParams ⟨0, 2, 1, 400, 0, MeterMode.aperture⟩ 3)) 3).aperture = 0) ∧
    ((0 : ℝ) ∉ Meter1.standardApertureValues) := by
  have hraw : Meter1.shutterRawValue ⟨0, 2, 1, 400, 0, MeterMode.aperture⟩ 3 = 1/8 := by
    unfold Meter1.shutterRawValue
    rw [show (-(3 - (0 : ℝ))) = ((-3 : ℤ) : ℝ) by norm_num, Real.rpow_intCast]
    norm_num
  have h1 : Meter1.updateExposureParams ⟨0, 2, 1, 400, 0, MeterMode.aperture⟩ 3 =
      ⟨3, 2, 1/8, 400, 0, MeterMode.aperture⟩ := by
    rw [updateExposureParams_aperture _ _ rfl, hraw, if_neg (by norm_num),
      shutter1_snap_mem (1/8) (by norm_num) (by norm_num [Meter1.standardShutterSpeeds])]
  have h2 : Meter1.toggleMeteringMode ⟨3, 2, 1/8, 400, 0, MeterMode.aperture⟩ =
      ⟨3, 2, 1/8, 400, 0, MeterMode.shutter⟩ := rfl
  have h3 : Meter1.apertureRawValue ⟨3, 2, 1/8, 400, 0, MeterMode.shutter⟩ 3 = 1/2 := by
    unfold Meter1.apertureRawValue
    rw [show ((3 : ℝ) - 0) = ((3 : ℤ) : ℝ) by norm_num, Real.rpow_intCast,
      show (1/8 : ℝ) * (100/400) * (2 : ℝ) ^ (3 : ℤ) = (1/2)^2 by norm_num,
      Real.sqrt_sq (by norm_num)]
  refine ⟨by rw [h1], ?_, by norm_num [Meter1.standardApertureValues]⟩
  rw [h1, h2, updateExposureParams_shutter _ _ rfl (by norm_num), h3,
    if_pos (Or.inl (by norm_num))]

/-- C7 amended: the round trip does recover the held aperture when
ISO = 100 and the raw shutter value of the aperture-priority solve lies
exactly on the standard shutter table: then the snap keeps the raw
shutter, the shutter-priority solve computes the held aperture back
exactly, and the aperture snap keeps it. -/
theorem c7_roundtrip_iso100_exact (ev comp a e0 sh0 : ℝ)
    (ha : a ∈ Meter1.standardApertureValues)
    (hraw : Meter1.shutterRawValue ⟨e0, a, sh0, 100, comp, MeterMode.aperture⟩ ev ∈
      Meter1.standardShutterSpeeds) :
    (Meter1.updateExposureParams (Meter1.toggleMeteringMode
      (Meter1.updateExposureParams ⟨e0, a, sh0, 100, comp, MeterMode.aperture⟩ ev)) ev).aperture
      = a := by
  have hrpos : 0 < Meter1.shutterRawValue ⟨e0, a, sh0, 100, comp, MeterMode.aperture⟩ ev :=
    meter1_shutter_pos _ hraw
  have hrange := meter1_shutter_range _ hraw
  have harange := meter1_aperture_range _ ha
  have hapos : 0 < a := meter1_aperture_pos _ ha
  have h1 : Meter1.updateExposureParams ⟨e0, a, sh0, 100, comp, MeterMode.aperture⟩ ev =
      ⟨ev, a, Meter1.shutterRawValue ⟨e0, a, sh0, 100, comp, MeterMode.aperture⟩ ev,
        100, comp, MeterMode.aperture⟩ := by
    rw [updateExposureParams_aperture _ _ rfl,
      if_neg (by push_neg; exact ⟨hrange.1, hrange.2⟩),
      shutter1_snap_mem _ hrpos hraw]
  have h3 : Meter1.apertureRawValue
      ⟨ev, a, Meter1.shutterRawValue ⟨e0, a, sh0, 100, comp, MeterMode.aperture⟩ ev,
        100, comp, MeterMode.shutter⟩ ev = a := by
    unfold Meter1.apertureRawValue Meter1.shutterRawValue
    have h2e : (2 : ℝ) ^ (-(ev - comp)) * (2 : ℝ) ^ (ev - comp) = 1 := by
      rw [← Real.rpow_add (by norm_num : (0 : ℝ) < 2)]
      norm_num
    rw [show (2 : ℝ) ^ (-(ev - comp)) * (100/100) * a^2 * (100/100) * (2 : ℝ) ^ (ev - comp)
        = ((2 : ℝ) ^ (-(ev - comp)) * (2 : ℝ) ^ (ev - comp)) * a^2 by ring, h2e, one_mul,
      Real.sqrt_sq hapos.le]
  rw [h1,
    show Meter1.toggleMeteringMode
        ⟨ev, a, Meter1.shutterRawValue ⟨e0, a, sh0, 100, comp, MeterMode.aperture⟩ ev,
          100, comp, MeterMode.aperture⟩ =
      ⟨ev, a, Meter1.shutterRawValue ⟨e0, a, sh0, 100, comp, MeterMode.aperture⟩ ev,
        100, comp, MeterMode.shutter⟩ from rfl,
    updateExposureParams_shutter _ _ rfl hrpos, h3,
    if_neg (by push_neg; exact ⟨le_trans (by norm_num) harange.1, harange.2⟩)]
  exact aperture1_snap_mem a ha

/-- C7 witness: EV = 4, compensation = 0, held aperture f/2 at ISO 100
gives raw shutter 1/4, a table entry, and the round trip returns f/2. -/
theorem c7_witness :
    (Meter1.updateExposureParams (Meter1.toggleMeteringMode
      (Meter1.updateExposureParams ⟨0, 2, 1, 100, 0, MeterMode.aperture⟩ 4)) 4).aperture = 2 :=
  c7_roundtrip_iso100_exact 4 0 2 0 1 (by norm_num [Meter1.standardApertureValues])
    (by
      have h : Meter1.shutterRawValue ⟨0, 2, 1, 100, 0, MeterMode.aperture⟩ 4 = 1/4 := by
        unfold Meter1.shutterRawValue
        rw [show (-(4 - (0 : ℝ))) = ((-4 : ℤ) : ℝ) by norm_num, Real.rpow_intCast]
        norm_num
      rw [h]
      norm_num [Meter1.standardShutterSpeeds])

/-- C5 counterexample: the all-white buffer does not yield luminance
close to 1: for the 1-by-1 all-white buffer the sampler returns 0.6,
because the single pixel is a center pixel and its luminance 1 is scaled
by the unnormalized center weight 0.6. -/
theorem c5_counterexample :
    Meter4.averageLuminance ⟨1, 1, fun _ => 255⟩ = 3/5 ∧ (3/5 : ℝ) < 9/10 :=
  ⟨averageLuminance_white11, by norm_num⟩

/-- C5 amended: for every buffer with channel values in 0..255 and
positive dimensions, the sampled average luminance lies in [0, 1]; an
all-black buffer yields 0; the all-white 1-by-1 buffer yields 0.6 (not
approximately 1), since the 0.6/0.4 center weights are applied without
normalization. -/
theorem c5_luminance_sampler (f : Meter4.Frame) (hd : ∀ i, f.data i ≤ 255)
    (hw : 0 < f.width) (hh : 0 < f.height) :
    (0 ≤ Meter4.averageLuminance f ∧ Meter4.averageLuminance f ≤ 1) ∧
    ((∀ i, f.data i = 0) → Meter4.averageLuminance f = 0) ∧
    Meter4.averageLuminance ⟨1, 1, fun _ => 255⟩ = 3/5 :=
  ⟨averageLuminance_bounds f hd hw hh, fun hb => averageLuminance_black f hb,
    averageLuminance_white11⟩

/-- C5 witness: the all-black 2-by-2 buffer instantiates the sampler
theorem; in particular its average luminance is 0. -/
theorem c5_witness :
    (0 ≤ Meter4.averageLuminance ⟨2, 2, fun _ => 0⟩ ∧
      Meter4.averageLuminance ⟨2, 2, fun _ => 0⟩ ≤ 1) ∧
    ((∀ i, (fun _ : ℕ => 0) i = 0) → Meter4.averageLuminance ⟨2, 2, fun _ => 0⟩ = 0) ∧
    Meter4.averageLuminance ⟨1, 1, fun _ => 255⟩ = 3/5 :=
  c5_luminance_sampler ⟨2, 2, fun _ => 0⟩ (fun _ => by norm_num) (by norm_num) (by norm_num)

/-- Full evaluation of `analyzeBrightness` on the all-black 1-by-1 frame
from the state ISO 200, compensation 0, aperture 8, shutter 1/60: the
measured EV is log2(3/2), the raw shutter is 64/3, and the snap gives
30 s. -/
theorem analyze_black_eval :
    Meter4.analyzeBrightness ⟨1, 1, fun _ => 0⟩ ⟨200, 0, 8, 1/60, MeterMode.aperture⟩ =
      ⟨200, 0, 8, 30, MeterMode.aperture⟩ := by
  have hval : (2 : ℝ) ^ (-(Meter4.measuredEV ⟨1, 1, fun _ => 0⟩ - 0)) * ((100 : ℝ)/200) *
      (8 : ℝ)^2 = 64/3 := by
    rw [measuredEV_black11, show (-(Real.logb 2 (3/2) - (0 : ℝ))) = -Real.logb 2 (3/2) by ring,
      rpow_neg_logb (3/2) (by norm_num)]
    norm_num
  simp only [Meter4.analyzeBrightness]
  rw [if_pos trivial, hval, if_neg (by norm_num), shutter4_snap_sixty_four_thirds]

/-- Full evaluation of `analyzeBrightness` on the all-white 1-by-1 frame
from the same state: the measured EV is log2(900), the raw shutter is
8/225, and the snap gives 1/30 s. -/
theorem analyze_white_eval :
    Meter4.analyzeBrightness ⟨1, 1, fun _ => 255⟩ ⟨200, 0, 8, 1/60, MeterMode.aperture⟩ =
      ⟨200, 0, 8, 1/30, MeterMode.aperture⟩ := by
  have hval : (2 : ℝ) ^ (-(Meter4.measuredEV ⟨1, 1, fun _ => 255⟩ - 0)) * ((100 : ℝ)/200) *
      (8 : ℝ)^2 = 8/225 := by
    rw [measuredEV_white11, show (-(Real.logb 2 900 - (0 : ℝ))) = -Real.logb 2 900 by ring,
      rpow_neg_logb 900 (by norm_num)]
    norm_num
  simp only [Meter4.analyzeBrightness]
  rw [if_pos trivial, hval, if_neg (by norm_num), shutter4_snap_eight_225]

/-- C8 counterexample: the handler triggered by an ISO or compensation
change does take a new measurement: its result depends on the frame the
camera currently shows.  From the same state, an all-black current frame
yields shutter 30 s while an all-white current frame yields 1/30 s - a
cached-EV re-solve could not distinguish them. -/
theorem c8_counterexample :
    Meter4.watchIsoComp ⟨1, 1, fun _ => 0⟩ ⟨200, 0, 8, 1/60, MeterMode.aperture⟩ ≠
      Meter4.watchIsoComp ⟨1, 1, fun _ => 255⟩ ⟨200, 0, 8, 1/60, MeterMode.aperture⟩ := by
  have hb : Meter4.watchIsoComp ⟨1, 1, fun _ => 0⟩ ⟨200, 0, 8, 1/60, MeterMode.aperture⟩ =
      ⟨200, 0, 8, 30, MeterMode.aperture⟩ := by
    unfold Meter4.watchIsoComp
    rw [if_pos (by norm_num : (1/60 : ℝ) > 0)]
    exact analyze_black_eval
  have hw : Meter4.watchIsoComp ⟨1, 1, fun _ => 255⟩ ⟨200, 0, 8, 1/60, MeterMode.aperture⟩ =
      ⟨200, 0, 8, 1/30, MeterMode.aperture⟩ := by
    unfold Meter4.watchIsoComp
    rw [if_pos (by norm_num : (1/60 : ℝ) > 0)]
    exact analyze_white_eval
  rw [hb, hw]
  norm_num [Meter4.State.mk.injEq]

/-- C8 amended: an ISO or exposure-compensation change triggers a full
new measurement, not a cached-EV re-solve: when the current shutter
speed is positive the watcher runs `analyzeBrightness` on the current
frame (re-sampling luminance), and when it is not positive (the
sentinel 0) it does nothing; the view stores no EV at all - its
displayed EV is recomputed from aperture, shutter, ISO and
compensation. -/
theorem c8_iso_watch_remeasures :
    (∀ (f : Meter4.Frame) (s : Meter4.State), ¬ (s.shutterSpeed > 0) →
      Meter4.watchIsoComp f s = s) ∧
    (∀ (f : Meter4.Frame) (s : Meter4.State), s.shutterSpeed > 0 →
      Meter4.watchIsoComp f s = Meter4.analyzeBrightness f s) := by
  constructor <;> intro f s h <;> unfold Meter4.watchIsoComp
  · rw [if_neg h]
  · rw [if_pos h]

/-- C8 witness: with the sentinel shutter 0 the watcher does nothing, and
with shutter 1/60 it runs a full measurement. -/
theorem c8_witness :
    Meter4.watchIsoComp ⟨1, 1, fun _ => 0⟩ ⟨200, 0, 8, 0, MeterMode.aperture⟩ =
      ⟨200, 0, 8, 0, MeterMode.aperture⟩ ∧
    Meter4.watchIsoComp ⟨1, 1, fun _ => 0⟩ ⟨200, 0, 8, 1/60, MeterMode.aperture⟩ =
      Meter4.analyzeBrightness ⟨1, 1, fun _ => 0⟩ ⟨200, 0, 8, 1/60, MeterMode.aperture⟩ :=
  ⟨c8_iso_watch_remeasures.1 _ _ (by norm_num),
   c8_iso_watch_remeasures.2 _ _ (by norm_num)⟩

end LightMeter
